import Mathlib

/-!
Shallow embedding of the synchronization engine of vr_music_remote.py:
the marquee state machine, the change-detecting poll loop, the
now-playing normalization, the artwork setter, and the Tk event-queue
handoff used to move updates from the poller thread to the UI thread.
Text is modelled as List Char (Python strings are sequences of
characters); Python str.strip is modelled with Char.isWhitespace.
-/

/-- UI CONFIG constant MARQUEE_ENABLED (source line 41). -/
def MARQUEE_ENABLED : Bool := true

/-- UI CONFIG constant MARQUEE_WINDOW_CHARS (source line 42). -/
def MARQUEE_WINDOW_CHARS : Nat := 36

/-- UI CONFIG constant MARQUEE_DELAY_MS (source line 43). -/
def MARQUEE_DELAY_MS : Nat := 350

/-- UI CONFIG constant MARQUEE_START_PAUSE_MS (source line 44). -/
def MARQUEE_START_PAUSE_MS : Nat := 3500

/-- UI CONFIG constant MARQUEE_GAP, the spacing between repeats
(source line 45). -/
def MARQUEE_GAP : List Char := "   •   ".toList

/-- Python str.strip with no argument: remove leading and trailing
whitespace (source lines 79-80 and 233 use .strip()). -/
def pyStrip (l : List Char) : List Char :=
  ((l.dropWhile Char.isWhitespace).reverse.dropWhile Char.isWhitespace).reverse

/-- Python str.ljust(w): right-pad with spaces up to width w
(source line 250). -/
def ljust (l : List Char) (w : Nat) : List Char :=
  l ++ List.replicate (w - l.length) ' '

/-- The marquee-relevant mutable state of the VRMusicRemote window:
the stop flag, the scroll buffer, the cursor, the two Tk timer jobs
(modelled as armed/not armed), and the displayed StringVar
(source lines 124-129 and 162). -/
structure MState where
  stop : Bool
  marquee_run : List Char
  marquee_i : Nat
  marquee_job : Bool
  marquee_pause_job : Bool
  now_playing : List Char

/-- The state built by VRMusicRemote.__init__ (source lines 125-129: stop
False, run empty, cursor 0, no jobs; line 162: initial display text). -/
def initMState : MState :=
  { stop := false
    marquee_run := []
    marquee_i := 0
    marquee_job := false
    marquee_pause_job := false
    now_playing := "🎵 (loading...)".toList }

/-- Number of armed marquee timers (tick job plus start-delay job). -/
def live_timers (s : MState) : Nat :=
  (if s.marquee_job then 1 else 0) + (if s.marquee_pause_job then 1 else 0)

/-- VRMusicRemote._start_marquee (source lines 213-242): cancel both
pending jobs, then either set the text directly (marquee disabled),
show the stripped text statically when it fits the window, or show the
first window of the stripped text, build the doubled scroll buffer, reset
the cursor and arm the start-delay job. -/
def start_marquee (s : MState) (text : List Char) : MState :=
  let s1 : MState := { s with marquee_job := false, marquee_pause_job := false }
  if MARQUEE_ENABLED = false then
    { s1 with now_playing := text }
  else
    let t := pyStrip text
    if t.length ≤ MARQUEE_WINDOW_CHARS then
      { s1 with now_playing := t }
    else
      { s1 with now_playing := t.take MARQUEE_WINDOW_CHARS
                marquee_run := t ++ MARQUEE_GAP ++ t
                marquee_i := 0
                marquee_pause_job := true }

/-- The window the marquee shows at cursor value k over scroll buffer
run: MARQUEE_WINDOW_CHARS characters starting at k mod run.length,
right-padded with spaces (source lines 248-250). -/
def mwindow (run : List Char) (k : Nat) : List Char :=
  ljust ((run.drop (k % run.length)).take MARQUEE_WINDOW_CHARS) MARQUEE_WINDOW_CHARS

/-- VRMusicRemote._tick_marquee (source lines 244-254): no-op when
stopped or when there is no scroll buffer; otherwise display the window
at the current cursor, advance the cursor and re-arm the tick job. -/
def tick_marquee (s : MState) : MState :=
  if s.stop = true ∨ s.marquee_run = [] then s
  else
    { s with now_playing := mwindow s.marquee_run s.marquee_i
             marquee_i := s.marquee_i + 1
             marquee_job := true }

/-- Outcome of reading the thumbnail stream inside the try block of
get_now_playing_and_art (source lines 84-96): either an exception at
some point of the read, or a stream with its reported size and the
bytes the DataReader delivers. -/
inductive ThumbOutcome
  | fail
  | ok (size : Int) (buf : List Nat)

/-- The media properties a session reports: title and artist may be
absent (Python None), and there may or may not be a thumbnail, whose
read can fail (source lines 78-96). -/
structure MediaProps where
  title : Option (List Char)
  artist : Option (List Char)
  thumbnail : Option ThumbOutcome

/-- The artwork-read logic of get_now_playing_and_art (source lines
82-96): no thumbnail gives no bytes; an exception inside the try block
leaves img_bytes as None; a stream with positive size yields its bytes. -/
def read_thumbnail : Option ThumbOutcome → Option (List Nat)
  | none => none
  | some ThumbOutcome.fail => none
  | some (ThumbOutcome.ok size buf) => if 0 < size then some buf else none

/-- get_now_playing_and_art (source lines 67-101): returns
(title, artist, img_bytes). No current session gives the fixed
"Nothing playing" result; otherwise title and artist are stripped with
empty fallback, artwork is read with local failure recovery, and a
fully blank title and artist is replaced by the placeholder. -/
def get_now_playing_and_art (session : Option MediaProps) :
    List Char × List Char × Option (List Nat) :=
  match session with
  | none => ("Nothing playing".toList, [], none)
  | some props =>
      let title := pyStrip (props.title.getD [])
      let artist := pyStrip (props.artist.getD [])
      let img_bytes := read_thumbnail props.thumbnail
      let title :=
        if title = [] ∧ artist = [] then "Playing (no metadata)".toList else title
      (title, artist, img_bytes)

/-- What the UI keeps for artwork: either cleared (empty image and no
photo) or a decoded photo (source lines 261-274). -/
inductive ArtState
  | cleared
  | shown (photo : List Nat)
  deriving DecidableEq

/-- VRMusicRemote._set_art (source lines 261-274): falsy bytes (None or
empty) clear the image; otherwise the bytes are decoded and resized by
the external image codec, modelled as the function decode; a decode
failure clears the image. The function is total: no outcome of decode
escapes to the caller. -/
def set_art (decode : List Nat → Option (List Nat)) :
    Option (List Nat) → ArtState
  | none => ArtState.cleared
  | some [] => ArtState.cleared
  | some (b :: bs) =>
      match decode (b :: bs) with
      | some photo => ArtState.shown photo
      | none => ArtState.cleared

/-- One iteration result of the provider call inside _update_loop
(source lines 279-292): either the normalized (title, artist, artwork)
triple, or an exception from the await. -/
inductive PollResult
  | ok (title artist : List Char) (img : Option (List Nat))
  | err
  deriving DecidableEq

/-- One update handed to the UI thread: the display line scheduled into
start_marquee, together with the artwork bytes scheduled into set_art
(source lines 285-288 and 291-292). -/
abbrev Emission : Type := List Char × Option (List Nat)

/-- The decorated display line of _update_loop (source line 285): the
glyph prefix plus the title, or the "(unknown)" placeholder when the
title is empty. -/
def decorate (title : List Char) : List Char :=
  if title = [] then "🎵 (unknown)".toList else "🎵 ".toList ++ title

/-- The fixed error line written when the provider call fails
(source line 291). -/
def error_line : List Char := "🎵 (unable to read media session)".toList

/-- One iteration of the body of _update_loop (source lines 279-292):
on success, compare (title, artist) to last; when different, store it
and emit the decorated line with the artwork; when equal, emit nothing.
On failure, emit the error line with no artwork and leave last
unchanged. Returns the new last and the list of emissions of this
iteration. -/
def update_step (last : Option (List Char × List Char)) (r : PollResult) :
    Option (List Char × List Char) × List Emission :=
  match r with
  | PollResult.ok title artist img =>
      if some (title, artist) ≠ last then
        (some (title, artist), [(decorate title, img)])
      else
        (last, [])
  | PollResult.err => (last, [(error_line, none)])

/-- _update_loop run over a finite sequence of provider results
(source lines 276-294): folds update_step, returning the final stored
last value and the concatenated emissions in order. -/
def update_loop (last : Option (List Char × List Char)) :
    List PollResult → Option (List Char × List Char) × List Emission
  | [] => (last, [])
  | r :: rs =>
      let s := update_step last r
      let rest := update_loop s.1 rs
      (rest.1, s.2 ++ rest.2)

/-- Models self.after(0, callback) (source lines 287-288, 291-292):
Tk appends the scheduled callback to its event queue. -/
def after_zero (q : List Emission) (e : Emission) : List Emission :=
  q ++ [e]

/-- Models the Tk event loop consuming its queue: the oldest scheduled
callback is removed and run first (FIFO), so a take returns the front
of the queue. -/
def event_take (q : List Emission) : Option Emission × List Emission :=
  match q with
  | [] => (none, [])
  | e :: rest => (some e, rest)

/-- C4: starting a new marquee session first cancels both the pending
start-delay job and the pending tick job; afterwards the tick job is
never armed and at most one timer (the start-delay job, armed only in
the scrolling case) is live, whatever timers the previous session had
pending. -/
theorem c4_single_timer_after_start (s : MState) (text : List Char) :
    (start_marquee s text).marquee_job = false ∧
    live_timers (start_marquee s text) ≤ 1 := by
  unfold start_marquee live_timers MARQUEE_ENABLED
  by_cases hc : (pyStrip text).length ≤ MARQUEE_WINDOW_CHARS <;> simp [hc]

/-- C6: a source text already in the form the engine scrolls (stripped)
whose length is at most the 36-character window makes the marquee
static: the full text is displayed and no timer is armed (boundary
inclusive); the empty string gives an empty static display. -/
theorem c6_static_when_fits (s : MState) (t : List Char)
    (hstrip : pyStrip t = t) (hlen : t.length ≤ MARQUEE_WINDOW_CHARS) :
    (start_marquee s t).now_playing = t ∧
    live_timers (start_marquee s t) = 0 ∧
    (start_marquee s []).now_playing = [] ∧
    live_timers (start_marquee s []) = 0 := by
  have h0 : pyStrip ([] : List Char) = [] := rfl
  unfold start_marquee live_timers MARQUEE_ENABLED
  simp [hstrip, hlen, h0]

/-- C6 witness: a text of exactly 36 characters (the inclusive
boundary) is shown statically in full with no timer armed. -/
theorem c6_static_when_fits_witness :
    pyStrip "abcdefghijklmnopqrstuvwxyz0123456789".toList
      = "abcdefghijklmnopqrstuvwxyz0123456789".toList ∧
    "abcdefghijklmnopqrstuvwxyz0123456789".toList.length
      ≤ MARQUEE_WINDOW_CHARS ∧
    ((start_marquee initMState "abcdefghijklmnopqrstuvwxyz0123456789".toList).now_playing
        = "abcdefghijklmnopqrstuvwxyz0123456789".toList ∧
      live_timers (start_marquee initMState "abcdefghijklmnopqrstuvwxyz0123456789".toList) = 0 ∧
      (start_marquee initMState []).now_playing = [] ∧
      live_timers (start_marquee initMState []) = 0) :=
  ⟨by decide, by decide,
    c6_static_when_fits initMState "abcdefghijklmnopqrstuvwxyz0123456789".toList
      (by decide) (by decide)⟩

/-- C10: the marquee strips leading and trailing whitespace from the
incoming line before deciding between static and scrolling; whenever
the stripped form fits the 36-character window the stripped text is
shown statically with no timer armed, even when the original line is
longer than the window. -/
theorem c10_stripped_text_decides (s : MState) (t : List Char)
    (h : (pyStrip t).length ≤ MARQUEE_WINDOW_CHARS) :
    (start_marquee s t).now_playing = pyStrip t ∧
    live_timers (start_marquee s t) = 0 := by
  unfold start_marquee live_timers MARQUEE_ENABLED
  simp [h]

/-- C10 witness: a 44-character line (longer than the 36-character
window) whose stripped form has 30 characters is shown statically as
the stripped text. -/
theorem c10_stripped_text_decides_witness :
    (pyStrip "       abcdefghijklmnopqrstuvwxyz0123       ".toList).length
      ≤ MARQUEE_WINDOW_CHARS ∧
    MARQUEE_WINDOW_CHARS
      < "       abcdefghijklmnopqrstuvwxyz0123       ".toList.length ∧
    ((start_marquee initMState "       abcdefghijklmnopqrstuvwxyz0123       ".toList).now_playing
        = pyStrip "       abcdefghijklmnopqrstuvwxyz0123       ".toList ∧
      live_timers
        (start_marquee initMState "       abcdefghijklmnopqrstuvwxyz0123       ".toList) = 0) :=
  ⟨by decide, by decide,
    c10_stripped_text_decides initMState
      "       abcdefghijklmnopqrstuvwxyz0123       ".toList (by decide)⟩

/-- C1: on a successful provider result, an iteration of the update
loop emits a display-line update exactly when the (title, artist) pair
differs from the stored previous value; the first iteration (stored
value still the unset sentinel none) always emits, and an iteration
with an unchanged pair emits nothing. -/
theorem c1_emit_iff_changed (last : Option (List Char × List Char))
    (title artist : List Char) (img : Option (List Nat)) :
    ((update_step last (PollResult.ok title artist img)).2 ≠ []
        ↔ some (title, artist) ≠ last) ∧
    (update_step none (PollResult.ok title artist img)).2
        = [(decorate title, img)] ∧
    (update_step (some (title, artist)) (PollResult.ok title artist img)).2
        = [] := by
  unfold update_step
  by_cases h : some (title, artist) = last
  · subst h
    simp
  · simp [h]

/-- One tick in the scrolling regime: when not stopped and the scroll
buffer is nonempty, the tick displays the window at the current cursor,
advances the cursor and re-arms the tick job, leaving the stop flag and
the buffer unchanged. -/
theorem tick_marquee_eq (s : MState) (hstop : s.stop = false)
    (hrun : s.marquee_run ≠ []) :
    tick_marquee s =
      { s with now_playing := mwindow s.marquee_run s.marquee_i
               marquee_i := s.marquee_i + 1
               marquee_job := true } := by
  unfold tick_marquee
  rw [if_neg]
  simp [hstop, hrun]

/-- Iterating the tick in the scrolling regime preserves the stop flag
and the scroll buffer and advances the cursor by one per tick. -/
theorem tick_marquee_iterate_state (s : MState) (hstop : s.stop = false)
    (hrun : s.marquee_run ≠ []) (k : Nat) :
    (tick_marquee^[k] s).stop = false ∧
    (tick_marquee^[k] s).marquee_run = s.marquee_run ∧
    (tick_marquee^[k] s).marquee_i = s.marquee_i + k := by
  induction k with
  | zero => simpa using hstop
  | succ n ih =>
      obtain ⟨h1, h2, h3⟩ := ih
      rw [Function.iterate_succ_apply', tick_marquee_eq _ h1 (h2 ▸ hrun)]
      simp [h1, h2, h3, Nat.add_assoc]

/-- The display after k+1 ticks in the scrolling regime is the window
at cursor value (initial cursor + k). -/
theorem tick_marquee_iterate_display (s : MState) (hstop : s.stop = false)
    (hrun : s.marquee_run ≠ []) (k : Nat) :
    (tick_marquee^[k + 1] s).now_playing
      = mwindow s.marquee_run (s.marquee_i + k) := by
  obtain ⟨h1, h2, h3⟩ := tick_marquee_iterate_state s hstop hrun k
  rw [Function.iterate_succ_apply', tick_marquee_eq _ h1 (h2 ▸ hrun)]
  simp [h2, h3]

/-- C5: for a line whose stripped text exceeds the 36-character window,
starting the marquee displays the first 36 characters of the text and
builds the scroll buffer text+gap+text; the (k+1)-st tick then displays
the 36-character window of the buffer starting at offset k mod the
buffer length, right-padded with spaces past the buffer end; the window
is periodic with period the buffer length, so after that many further
ticks the display returns to its earlier value. -/
theorem c5_scroll_periodic (s : MState) (t : List Char)
    (hstop : s.stop = false)
    (hlong : MARQUEE_WINDOW_CHARS < (pyStrip t).length) :
    (start_marquee s t).now_playing = (pyStrip t).take MARQUEE_WINDOW_CHARS ∧
    (start_marquee s t).marquee_run = pyStrip t ++ MARQUEE_GAP ++ pyStrip t ∧
    (∀ k, (tick_marquee^[k + 1] (start_marquee s t)).now_playing
        = mwindow (pyStrip t ++ MARQUEE_GAP ++ pyStrip t) k) ∧
    (∀ k, mwindow (pyStrip t ++ MARQUEE_GAP ++ pyStrip t)
          (k + (pyStrip t ++ MARQUEE_GAP ++ pyStrip t).length)
        = mwindow (pyStrip t ++ MARQUEE_GAP ++ pyStrip t) k) := by
  have hne : pyStrip t ≠ [] := by
    intro h
    rw [h] at hlong
    simp [MARQUEE_WINDOW_CHARS] at hlong
  have hb : start_marquee s t =
      { s with now_playing := (pyStrip t).take MARQUEE_WINDOW_CHARS
               marquee_run := pyStrip t ++ MARQUEE_GAP ++ pyStrip t
               marquee_i := 0
               marquee_job := false
               marquee_pause_job := true } := by
    unfold start_marquee MARQUEE_ENABLED
    simp [Nat.not_le.mpr hlong]
  refine ⟨by rw [hb], by rw [hb], ?_, ?_⟩
  · intro k
    have hrun : (start_marquee s t).marquee_run ≠ [] := by
      rw [hb]
      simp [hne]
    have := tick_marquee_iterate_display (start_marquee s t)
      (by rw [hb]; exact hstop) hrun k
    rw [this, hb]
    simp
  · intro k
    unfold mwindow
    rw [Nat.add_mod_right]

/-- C5 witness: a concrete 50-character title line scrolls; the first
tick after the start delay shows the window of text+gap+text at
offset 0. -/
theorem c5_scroll_periodic_witness :
    MARQUEE_WINDOW_CHARS
      < (pyStrip "The Quick Brown Fox Jumps Over The Lazy Dog Twice!".toList).length ∧
    initMState.stop = false ∧
    (tick_marquee^[0 + 1]
        (start_marquee initMState
          "The Quick Brown Fox Jumps Over The Lazy Dog Twice!".toList)).now_playing
      = mwindow
          (pyStrip "The Quick Brown Fox Jumps Over The Lazy Dog Twice!".toList
            ++ MARQUEE_GAP
            ++ pyStrip "The Quick Brown Fox Jumps Over The Lazy Dog Twice!".toList)
          0 :=
  ⟨by decide, rfl,
    (c5_scroll_periodic initMState
      "The Quick Brown Fox Jumps Over The Lazy Dog Twice!".toList
      rfl (by decide)).2.2.1 0⟩

/-- C8: per-poll normalization: a session whose title and artist are
both empty or whitespace yields the fixed "Playing (no metadata)"
title with empty artist; no session at all yields "Nothing playing"
with empty artist and no artwork. -/
theorem c8_normalization (props : MediaProps)
    (ht : pyStrip (props.title.getD []) = [])
    (ha : pyStrip (props.artist.getD []) = []) :
    (get_now_playing_and_art (some props)).1 = "Playing (no metadata)".toList ∧
    (get_now_playing_and_art (some props)).2.1 = [] ∧
    get_now_playing_and_art none = ("Nothing playing".toList, [], none) := by
  unfold get_now_playing_and_art
  simp [ht, ha]

/-- C8 witness: a session reporting a whitespace title and a missing
artist produces the placeholder title and empty artist; the no-session
result is the fixed "Nothing playing" triple. -/
theorem c8_normalization_witness :
    pyStrip ((MediaProps.mk (some "   ".toList) none none).title.getD []) = [] ∧
    pyStrip ((MediaProps.mk (some "   ".toList) none none).artist.getD []) = [] ∧
    ((get_now_playing_and_art (some (MediaProps.mk (some "   ".toList) none none))).1
        = "Playing (no metadata)".toList ∧
      (get_now_playing_and_art (some (MediaProps.mk (some "   ".toList) none none))).2.1
        = [] ∧
      get_now_playing_and_art none = ("Nothing playing".toList, [], none)) :=
  ⟨by decide, by decide,
    c8_normalization (MediaProps.mk (some "   ".toList) none none)
      (by decide) (by decide)⟩

/-- C9: artwork failures are recovered locally. A failure while reading
the thumbnail during a poll yields the same title and artist as any
other thumbnail outcome, with the artwork component absent, and the
poll still returns normally; a decode failure in the artwork setter
yields the cleared state (set_art is total, so no decode outcome
reaches the caller). -/
theorem c9_artwork_failures_local (ti ar : Option (List Char))
    (th : Option ThumbOutcome) (decode : List Nat → Option (List Nat))
    (bs : List Nat) (hd : decode bs = none) :
    (get_now_playing_and_art
        (some (MediaProps.mk ti ar (some ThumbOutcome.fail)))).2.2 = none ∧
    (get_now_playing_and_art
        (some (MediaProps.mk ti ar (some ThumbOutcome.fail)))).1
      = (get_now_playing_and_art (some (MediaProps.mk ti ar th))).1 ∧
    (get_now_playing_and_art
        (some (MediaProps.mk ti ar (some ThumbOutcome.fail)))).2.1
      = (get_now_playing_and_art (some (MediaProps.mk ti ar th))).2.1 ∧
    set_art decode (some bs) = ArtState.cleared := by
  refine ⟨?_, ?_, ?_, ?_⟩
  · simp [get_now_playing_and_art, read_thumbnail]
  · simp [get_now_playing_and_art]
  · simp [get_now_playing_and_art]
  · cases bs with
    | nil => simp [set_art]
    | cons b rest => simp [set_art, hd]

/-- C2 counterexample: the handoff used by the code is Tk's event
queue; after two writes with no intervening take, the first take
returns the first write's payload, not the second's, so the channel is
not a coalescing single-slot mailbox. -/
theorem c2_counterexample :
    (event_take (after_zero (after_zero []
        (("🎵 First".toList, none) : Emission))
        (("🎵 Second".toList, none) : Emission))).1
      = some (("🎵 First".toList, none) : Emission) ∧
    (event_take (after_zero (after_zero []
        (("🎵 First".toList, none) : Emission))
        (("🎵 Second".toList, none) : Emission))).1
      ≠ some (("🎵 Second".toList, none) : Emission) := by
  decide

/-- C2 amended: the handoff from the poller context to the rendering
context is a FIFO event queue, not a coalescing slot: two writes with
no intervening take leave both updates queued in order, takes return
the first write's payload and then the second's, so the renderer
observes every intermediate update in order and finishes at the most
recent one. -/
theorem c2_fifo_event_queue (e1 e2 : Emission) :
    after_zero (after_zero [] e1) e2 = [e1, e2] ∧
    event_take [e1, e2] = (some e1, [e2]) ∧
    event_take [e2] = (some e2, []) :=
  ⟨rfl, rfl, rfl⟩

/-- C3 counterexample: after a successful poll of a track and then a
provider failure, the stored previous state is still that track, not
an error sentinel; a recovery poll returning the same track therefore
emits nothing, so the emitted sequence stops at the error line instead
of repeating the track's line. -/
theorem c3_counterexample :
    update_loop none
        [PollResult.ok "Song".toList "Artist".toList none, PollResult.err]
      = (some ("Song".toList, "Artist".toList),
         [("🎵 Song".toList, none), (error_line, none)]) ∧
    update_loop none
        [PollResult.ok "Song".toList "Artist".toList none, PollResult.err,
          PollResult.ok "Song".toList "Artist".toList none]
      = (some ("Song".toList, "Artist".toList),
         [("🎵 Song".toList, none), (error_line, none)]) := by
  decide

/-- C3 amended: a provider failure emits the fixed error line but
leaves the stored previous value unchanged (no error sentinel is
stored); the first successful poll after a failure emits the new
track's line exactly when its pair differs from the last successful
pair, and emits nothing when the recovered track equals the track
playing before the failure. -/
theorem c3_failure_keeps_last (last : Option (List Char × List Char))
    (title artist : List Char) (img : Option (List Nat)) :
    (update_step last PollResult.err).1 = last ∧
    (update_loop last [PollResult.err, PollResult.ok title artist img]).2
      = (error_line, none) ::
        (if some (title, artist) ≠ last then [(decorate title, img)] else []) := by
  refine ⟨rfl, ?_⟩
  by_cases h : some (title, artist) = last <;>
    simp [update_loop, update_step, h]

/-- C7 counterexample: two consecutive provider failures produce two
error-line writes, so redundant writes do occur after the first
error-line write during a sustained failure. -/
theorem c7_counterexample :
    (update_loop none [PollResult.err, PollResult.err]).2
      = [(error_line, none), (error_line, none)] ∧
    ¬ (update_loop none [PollResult.err, PollResult.err]).2.length ≤ 1 := by
  decide

/-- C7 amended: on a successful poll the loop emits nothing exactly
when the pair is unchanged, but every failing iteration writes the
error line: during a sustained failure one identical error write
occurs per iteration rather than only on the transition into the error
state. -/
theorem c7_error_writes_every_iteration
    (last : Option (List Char × List Char))
    (title artist : List Char) (img : Option (List Nat)) :
    update_step last PollResult.err = (last, [(error_line, none)]) ∧
    ((update_step last (PollResult.ok title artist img)).2 = []
      ↔ some (title, artist) = last) := by
  refine ⟨rfl, ?_⟩
  unfold update_step
  by_cases h : some (title, artist) = last <;> simp [h]

/-- C9 witness: a session whose thumbnail read fails still produces the
track's text with artwork absent, and a decoder that fails on concrete
bytes makes the setter clear the image. -/
theorem c9_artwork_failures_local_witness :
    (fun _ : List Nat => (none : Option (List Nat))) [7] = none ∧
    ((get_now_playing_and_art
        (some (MediaProps.mk (some "Song".toList) (some "Artist".toList)
          (some ThumbOutcome.fail)))).2.2 = none ∧
      (get_now_playing_and_art
          (some (MediaProps.mk (some "Song".toList) (some "Artist".toList)
            (some ThumbOutcome.fail)))).1
        = (get_now_playing_and_art
            (some (MediaProps.mk (some "Song".toList) (some "Artist".toList)
              none))).1 ∧
      (get_now_playing_and_art
          (some (MediaProps.mk (some "Song".toList) (some "Artist".toList)
            (some ThumbOutcome.fail)))).2.1
        = (get_now_playing_and_art
            (some (MediaProps.mk (some "Song".toList) (some "Artist".toList)
              none))).2.1 ∧
      set_art (fun _ : List Nat => (none : Option (List Nat))) (some [7])
        = ArtState.cleared) :=
  ⟨rfl,
    c9_artwork_failures_local (some "Song".toList) (some "Artist".toList)
      none (fun _ => none) [7] rfl⟩
